import Mathlib

/-!
Verification development for the eUPF operator charm.

The development shallowly embeds the reconciliation core of the charm:
configuration validation (src/charm_config.py), the convergence actions and
status evaluator (src/charm.py), and the process-execution timeout logic
(src/machine.py).  Host interaction is modelled by explicit state passing over
a HostState record together with a trace of host calls; external collaborators
(the YAML decoder and the template renderer) are parameters of the embedding,
exactly as the source treats them as opaque library calls.
-/

namespace Eupf

/-- Constant EUPF_SNAP_NAME from src/charm.py line 25. -/
def EUPF_SNAP_NAME : String := "eupf"

/-- Constant EUPF_SNAP_CHANNEL from src/charm.py line 26. -/
def EUPF_SNAP_CHANNEL : String := "edge"

/-- Constant EUPF_CONFIG_FILE_NAME from src/charm.py line 27. -/
def EUPF_CONFIG_FILE_NAME : String := "config.yaml"

/-- Constant EUPF_CONFIG_PATH from src/charm.py line 28. -/
def EUPF_CONFIG_PATH : String := "/var/snap/eupf/common"

/-- Constant PFCP_ADDRESS from src/charm.py line 29. -/
def PFCP_ADDRESS : String := "127.0.0.1:8805"

/-- Constant PFCP_PORT from src/charm.py line 31. -/
def PFCP_PORT : Nat := 8805

/-- Constant N3_ADDRESS from src/charm.py line 32. -/
def N3_ADDRESS : String := "127.0.0.1"

/-- Constant INTERFACE_NAME from src/charm.py line 33. -/
def INTERFACE_NAME : String := "lo"

/-- Constant PROMETHEUS_PORT from src/charm.py line 34. -/
def PROMETHEUS_PORT : Nat := 9090

/-- Path of the UPF configuration file used throughout src/charm.py,
the interpolation of EUPF_CONFIG_PATH and EUPF_CONFIG_FILE_NAME. -/
def eupf_config_file_path : String := EUPF_CONFIG_PATH ++ "/" ++ EUPF_CONFIG_FILE_NAME

/-! ### IP network parsing (model of the standard library collaborator)

The validator in src/charm_config.py delegates to the Python standard
library call ip_network(value, strict=False).  The functions below model that
external parser on the IPv4 textual forms relevant to this charm: a dotted
quad whose octets are decimal numbers up to 255 without leading zeros,
optionally followed by a slash and a decimal prefix length up to 32. -/

/-- Splits a character list on a separator character, mirroring how the
textual IP forms are decomposed into octet and prefix fields. -/
def splitOnChar (c : Char) : List Char → List (List Char)
  | [] => [[]]
  | x :: xs =>
    let rest := splitOnChar c xs
    if x = c then [] :: rest
    else
      match rest with
      | [] => [[x]]
      | r :: rs => (x :: r) :: rs

/-- Decimal value of a digit string, accumulator style. -/
def natOfDigits : List Char → Nat → Nat
  | [], acc => acc
  | c :: cs, acc => natOfDigits cs (acc * 10 + (c.toNat - 48))

/-- Admissible IPv4 octet: one to three decimal digits, no leading zero
unless the octet is exactly the single digit 0, and value at most 255. -/
def ipv4_octet_ok (l : List Char) : Bool :=
  decide (l.length > 0) && l.all Char.isDigit && decide (l.length ≤ 3) &&
    (l.length == 1 || l.headD ' ' != '0') && decide (natOfDigits l 0 ≤ 255)

/-- Admissible IPv4 dotted-quad address: exactly four admissible octets. -/
def ipv4_addr_ok (l : List Char) : Bool :=
  let parts := splitOnChar '.' l
  parts.length == 4 && parts.all ipv4_octet_ok

/-- Admissible prefix length: decimal digits with value at most 32. -/
def prefix_len_ok (l : List Char) : Bool :=
  decide (l.length > 0) && l.all Char.isDigit && decide (natOfDigits l 0 ≤ 32)

/-- Model of the external parser call ip_network(value, strict=False) used by
UpfConfig.validate_ip_network_address in src/charm_config.py lines 49 to 54:
true exactly when the string is an admissible IPv4 address or an admissible
IPv4 network in prefix-length form. -/
def ip_network_ok (s : String) : Bool :=
  match splitOnChar '/' s.data with
  | [addr] => ipv4_addr_ok addr
  | [addr, p] => ipv4_addr_ok addr && prefix_len_ok p
  | _ => false

/-! ### Configuration validation (src/charm_config.py) -/

/-- Raw desired-state input: the mapping handed to UpfConfig by
CharmConfig.from_charm (src/charm_config.py line 82).  The field core_ip holds
the value of the core-ip option when present, and external_upf_hostname the
value of the external-upf-hostname option when present. -/
structure RawConfig where
  core_ip : Option String
  external_upf_hostname : Option String
deriving DecidableEq, Repr

/-- Validated configuration, embedding the CharmConfig dataclass of
src/charm_config.py lines 57 to 71. -/
structure CharmConfig where
  core_ip : String
  external_upf_hostname : Option String
deriving DecidableEq, Repr

/-- Field errors collected by pydantic validation of UpfConfig
(src/charm_config.py lines 39 to 54): the required field core-ip errors when
absent, and its validator errors when the value fails the IP network parse;
the optional external-upf-hostname field never errors on string input. -/
def validation_error_fields (raw : RawConfig) : List String :=
  match raw.core_ip with
  | none => ["core-ip"]
  | some v => if ip_network_ok v then [] else ["core-ip"]

/-- Single quote character used by the error message of
CharmConfig.from_charm. -/
def single_quote : String := String.singleton (Char.ofNat 39)

/-- Lexicographic comparison of strings by code point, modelling how
list.sort orders the error field names in src/charm_config.py line 91. -/
def charListLe : List Char → List Char → Bool
  | [], _ => true
  | _ :: _, [] => false
  | a :: as, b :: bs => if a = b then charListLe as bs else decide (a.toNat < b.toNat)

/-- Boolean string order used by the sort of error field names. -/
def stringLe (s t : String) : Bool := charListLe s.data t.data

/-- Insertion into a sorted list of field names. -/
def insertSorted (x : String) : List String → List String
  | [] => [x]
  | y :: ys => if stringLe x y then x :: y :: ys else y :: insertSorted x ys

/-- Sorting of error field names, embedding error_fields.sort() in
src/charm_config.py line 91. -/
def sortFields : List String → List String
  | [] => []
  | x :: xs => insertSorted x (sortFields xs)

/-- Combined error message built by CharmConfig.from_charm in
src/charm_config.py lines 92 to 95: each field name is single quoted, the
names are joined with a comma and the list is bracketed. -/
def render_invalid_message (fields : List String) : String :=
  "The following configurations are not valid: [" ++
    String.intercalate ", " (fields.map (fun f => single_quote ++ f ++ single_quote)) ++ "]"

/-- Embedding of CharmConfig.from_charm (src/charm_config.py lines 73 to 95):
builds the validated configuration, or collects every field error, sorts the
field names and raises the combined message. -/
def CharmConfig.from_charm (raw : RawConfig) : Except String CharmConfig :=
  let errs := validation_error_fields raw
  if errs.isEmpty then
    Except.ok { core_ip := raw.core_ip.getD "", external_upf_hostname := raw.external_upf_hostname }
  else
    Except.error (render_invalid_message (sortFields errs))

/-! ### Host model

The charm interacts with the host through the Machine wrapper
(src/machine.py) and the snap library.  The observable host state consists of
the snap install state, the content of the single configuration file the charm
ever touches, and the activity flag of the eupf service.  Every host call the
charm makes is recorded in a trace. -/

/-- Observed host state: whether the eupf snap reports state Latest, the
content of the configuration file when it exists, and whether the eupf
service reports active. -/
structure HostState where
  snap_latest : Bool
  config_file : Option String
  service_active : Bool
deriving DecidableEq, Repr

/-- Host calls issued by the charm.  The first four constructors are read-only
observations; the last four mutate the host. -/
inductive HostCall where
  | path_exists (path : String)
  | pull (path : String)
  | snap_state (snap : String)
  | snap_services (snap : String)
  | snap_ensure (snap channel : String)
  | snap_hold (snap : String)
  | push (path content : String)
  | snap_start (snap service : String)
deriving DecidableEq, Repr

/-- Discriminates the host-mutating calls (package install and hold, file
write, service start) from the read-only observations. -/
def HostCall.mutating : HostCall → Bool
  | .snap_ensure _ _ => true
  | .snap_hold _ => true
  | .push _ _ => true
  | .snap_start _ _ => true
  | _ => false

/-- Result of running one charm operation: the new host state, the trace of
host calls made, and whether the operation completed without raising. -/
structure RunResult where
  state : HostState
  calls : List HostCall
  ok : Bool
deriving DecidableEq, Repr

/-- Renderer collaborator: render_upf_config_file (src/charm.py lines 39 to
61) loads the jinja template and is treated as a pure function of its four
arguments, as the specification prescribes for the templating step. -/
abbrev RenderFn : Type := String → String → String → Nat → String

/-- Content produced for the configuration file by _generate_config_file
(src/charm.py lines 136 to 141): the renderer applied to the four fixed
deployment constants. -/
def rendered_content (render : RenderFn) : String :=
  render PFCP_ADDRESS N3_ADDRESS INTERFACE_NAME PROMETHEUS_PORT

/-- Embedding of _upf_config_file_is_written (src/charm.py lines 147 to 148):
an existence check on the configuration file path. -/
def upf_config_file_is_written (s : HostState) : Bool × List HostCall :=
  (s.config_file.isSome, [HostCall.path_exists eupf_config_file_path])

/-- Embedding of _upf_config_file_content_matches (src/charm.py lines 150 to
155): pull the existing file, decode both texts with the YAML collaborator and
compare the decoded structures; a decode failure of either text is caught and
reported as no match. -/
def upf_config_file_content_matches {Y : Type} [DecidableEq Y]
    (decode : String → Option Y) (content : String) (s : HostState) :
    Bool × List HostCall :=
  let existing := s.config_file.getD ""
  (match decode existing, decode content with
   | some a, some b => decide (a = b)
   | _, _ => false,
   [HostCall.pull eupf_config_file_path])

/-- Embedding of _write_upf_config_file (src/charm.py lines 157 to 159). -/
def write_upf_config_file (content : String) (s : HostState) :
    HostState × List HostCall :=
  ({ s with config_file := some content }, [HostCall.push eupf_config_file_path content])

/-- Embedding of _generate_config_file (src/charm.py lines 135 to 145):
render the content from the fixed constants, then write it unless the file
already exists with equivalent decoded content.  The match check is only
evaluated when the file exists, mirroring the short-circuit in the source. -/
def generate_config_file {Y : Type} [DecidableEq Y] (decode : String → Option Y)
    (render : RenderFn) (s : HostState) : RunResult :=
  let content := rendered_content render
  let w := upf_config_file_is_written s
  if !w.1 then
    let r := write_upf_config_file content s
    { state := r.1, calls := w.2 ++ r.2, ok := true }
  else
    let m := upf_config_file_content_matches decode content s
    if !m.1 then
      let r := write_upf_config_file content s
      { state := r.1, calls := w.2 ++ m.2 ++ r.2, ok := true }
    else
      { state := s, calls := w.2 ++ m.2, ok := true }

/-- Embedding of _eupf_snap_installed (src/charm.py lines 130 to 133): a
read-only query of the snap state. -/
def eupf_snap_installed (s : HostState) : Bool × List HostCall :=
  (s.snap_latest, [HostCall.snap_state EUPF_SNAP_NAME])

/-- Embedding of _install_eupf_snap (src/charm.py lines 114 to 128): a no-op
when the snap is already at Latest; otherwise ensure the snap at the edge
channel and hold it.  The snap_error flag models a SnapError raised by the
snap library during the ensure call; the handler logs and re-raises, so the
run ends not ok and the hold call is never reached. -/
def install_eupf_snap (snap_error : Bool) (s : HostState) : RunResult :=
  let q := eupf_snap_installed s
  if q.1 then { state := s, calls := q.2, ok := true }
  else if snap_error then
    { state := s, calls := q.2 ++ [HostCall.snap_ensure EUPF_SNAP_NAME EUPF_SNAP_CHANNEL],
      ok := false }
  else
    { state := { s with snap_latest := true },
      calls := q.2 ++ [HostCall.snap_ensure EUPF_SNAP_NAME EUPF_SNAP_CHANNEL,
                       HostCall.snap_hold EUPF_SNAP_NAME],
      ok := true }

/-- Embedding of _eupf_service_started (src/charm.py lines 169 to 173): a
read-only query of the snap services table. -/
def eupf_service_started (s : HostState) : Bool × List HostCall :=
  (s.service_active, [HostCall.snap_services EUPF_SNAP_NAME])

/-- Embedding of _start_eupf_service (src/charm.py lines 161 to 167): a no-op
when the service reports active, otherwise a start call for the eupf
service. -/
def start_eupf_service (s : HostState) : RunResult :=
  let q := eupf_service_started s
  if q.1 then { state := s, calls := q.2, ok := true }
  else
    { state := { s with service_active := true },
      calls := q.2 ++ [HostCall.snap_start EUPF_SNAP_NAME "eupf"], ok := true }

/-- Embedding of _configure (src/charm.py lines 100 to 112): gate on
leadership, then run install, generate and start in order.  A failure of the
install step propagates and aborts the remaining sequence. -/
def configure {Y : Type} [DecidableEq Y] (is_leader snap_error : Bool)
    (decode : String → Option Y) (render : RenderFn) (s : HostState) : RunResult :=
  if !is_leader then { state := s, calls := [], ok := true }
  else
    let r1 := install_eupf_snap snap_error s
    if !r1.ok then r1
    else
      let r2 := generate_config_file decode render r1.state
      let r3 := start_eupf_service r2.state
      { state := r3.state, calls := r1.calls ++ r2.calls ++ r3.calls, ok := true }

/-! ### Status evaluator and event dispatch -/

/-- Unit status values used by the charm. -/
inductive Status where
  | blocked (msg : String)
  | waiting (msg : String)
  | active
deriving DecidableEq, Repr

/-- Embedding of _on_collect_status (src/charm.py lines 86 to 97): a non
leader is blocked; a leader without the configuration file is waiting; a
leader with the file present is active.  The only host call on this path is
the read-only existence check. -/
def on_collect_status (is_leader : Bool) (s : HostState) : Status × List HostCall :=
  if !is_leader then (Status.blocked "Scaling is not implemented for this charm", [])
  else
    let w := upf_config_file_is_written s
    if !w.1 then (Status.waiting "Waiting for UPF configuration file", w.2)
    else (Status.active, w.2)

/-- Embedding of the config-changed dispatch: the constructor of
EupfOperatorCharm (src/charm.py lines 79 to 84) parses the raw configuration
and, when parsing raises CharmConfigInvalidError, returns before observing
config_changed, so the event performs no host call at all; with a valid
configuration the event runs _configure. -/
def handle_config_changed {Y : Type} [DecidableEq Y] (raw : RawConfig)
    (is_leader snap_error : Bool) (decode : String → Option Y) (render : RenderFn)
    (s : HostState) : RunResult :=
  match CharmConfig.from_charm raw with
  | Except.error _ => { state := s, calls := [], ok := true }
  | Except.ok _ => configure is_leader snap_error decode render s

/-- Juju events relevant to the charm: the config-changed event, the
collect-unit-status event (always observed, src/charm.py line 69), and any
other event, for which no handler is registered. -/
inductive Trigger where
  | config_changed
  | collect_unit_status
  | other
deriving DecidableEq, Repr

/-- Dispatch of one event against the charm. -/
def handle_trigger {Y : Type} [DecidableEq Y] (tr : Trigger) (raw : RawConfig)
    (is_leader snap_error : Bool) (decode : String → Option Y) (render : RenderFn)
    (s : HostState) : RunResult :=
  match tr with
  | Trigger.config_changed => handle_config_changed raw is_leader snap_error decode render s
  | Trigger.collect_unit_status =>
      { state := s, calls := (on_collect_status is_leader s).2, ok := true }
  | Trigger.other => { state := s, calls := [], ok := true }

/-! ### Process execution timeouts (src/machine.py) -/

/-- Behaviour of a launched subprocess: it either finishes after some amount
of time with an exit code and output streams, or it never finishes. -/
inductive ProcBehavior where
  | runs_for (t : Nat) (exit_code : Int) (stdout stderr : String)
  | hangs
deriving DecidableEq, Repr

/-- Outcome of waiting on a process: normal completion, a nonzero-exit
ExecError, a TimeoutError raised after the process was killed, or an
unbounded wait that never returns. -/
inductive WaitResult where
  | success (stdout stderr : String)
  | exec_error (exit_code : Int) (stdout stderr : String)
  | timed_out (killed : Bool)
  | never_returns
deriving DecidableEq, Repr

/-- Embedding of ExecProcess (src/machine.py lines 15 to 32): the stored
timeout handed over by Machine.exec and the behaviour of the spawned
process. -/
structure ExecProcess where
  timeout : Option Nat
  behavior : ProcBehavior
deriving DecidableEq, Repr

/-- Default of the timeout parameter of Machine.exec
(src/machine.py line 115): no timeout. -/
def exec_default_timeout : Option Nat := none

/-- Embedding of Machine.exec (src/machine.py lines 110 to 154): spawns the
process and hands the caller an ExecProcess carrying the given timeout. -/
def Machine.exec (behavior : ProcBehavior) (timeout : Option Nat) : ExecProcess :=
  { timeout := timeout, behavior := behavior }

/-- Embedding of ExecProcess.wait_output (src/machine.py lines 34 to 49).
With a timeout set, a process that finishes within the limit yields its
output on exit code zero and an ExecError otherwise; a process that exceeds
the limit or hangs is killed and a TimeoutError is raised.  With no timeout
the wait is unbounded: a finishing process is handled as above and a hanging
process is waited on forever. -/
def ExecProcess.wait_output (p : ExecProcess) : WaitResult :=
  match p.timeout with
  | some limit =>
    match p.behavior with
    | ProcBehavior.runs_for t ec out err =>
        if t ≤ limit then
          (if ec = 0 then WaitResult.success out err else WaitResult.exec_error ec out err)
        else WaitResult.timed_out true
    | ProcBehavior.hangs => WaitResult.timed_out true
  | none =>
    match p.behavior with
    | ProcBehavior.runs_for _ ec out err =>
        if ec = 0 then WaitResult.success out err else WaitResult.exec_error ec out err
    | ProcBehavior.hangs => WaitResult.never_returns

/-- Expiry of a timeout limit against a process behaviour: the process hangs
or runs strictly longer than the limit. -/
def behavior_exceeds (limit : Nat) : ProcBehavior → Bool
  | ProcBehavior.runs_for t _ _ _ => decide (limit < t)
  | ProcBehavior.hangs => true

/-! ### Sample instances used by witness theorems -/

/-- Sample YAML decoder for witnesses: decodes any text to its length. -/
def sample_decode : String → Option Nat := fun s => some s.length

/-- Sample renderer for witnesses: returns its first argument. -/
def sample_render : RenderFn := fun p _ _ _ => p

/-- Fresh host: snap absent, no configuration file, service inactive. -/
def fresh_host : HostState :=
  { snap_latest := false, config_file := none, service_active := false }

/-- Sample valid raw configuration. -/
def sample_raw : RawConfig := { core_ip := some "10.0.0.5", external_upf_hostname := none }

/-- Validated form of sample_raw. -/
def sample_cc : CharmConfig := { core_ip := "10.0.0.5", external_upf_hostname := none }

/-- Second sample valid raw configuration, differing in both fields. -/
def sample_raw2 : RawConfig :=
  { core_ip := some "192.0.2.0/24", external_upf_hostname := some "upf.example.com" }

/-- Validated form of sample_raw2. -/
def sample_cc2 : CharmConfig :=
  { core_ip := "192.0.2.0/24", external_upf_hostname := some "upf.example.com" }

/-- Sample invalid raw configuration with a malformed core-ip. -/
def invalid_raw : RawConfig := { core_ip := some "not-an-ip", external_upf_hostname := none }

/-- Sample decoder that fails on every text. -/
def decode_fail : String → Option Nat := fun _ => none

/-- Host whose configuration file content does not decode. -/
def stale_host : HostState :=
  { snap_latest := true, config_file := some "bad", service_active := true }

/-! ### Claims -/

/-- C1: the status evaluator is a pure function of the pair of leadership and
file-existence flags: a non-leader unit yields Blocked with the scaling
reason, a leader without the configuration file yields Waiting, a leader with
the file yields Active, and no host-mutating call is made on this path. -/
theorem C1_status_evaluator (l : Bool) (s : HostState) :
    (on_collect_status false s).1 = Status.blocked "Scaling is not implemented for this charm"
    ∧ (s.config_file = none →
        (on_collect_status true s).1 = Status.waiting "Waiting for UPF configuration file")
    ∧ (∀ c, s.config_file = some c → (on_collect_status true s).1 = Status.active)
    ∧ (on_collect_status l s).2.filter HostCall.mutating = [] := by
  refine ⟨rfl, ?_, ?_, ?_⟩
  · intro h
    simp [on_collect_status, upf_config_file_is_written, h]
  · intro c h
    simp [on_collect_status, upf_config_file_is_written, h]
  · cases l
    · rfl
    · rcases h : s.config_file with _ | c <;>
        simp [on_collect_status, upf_config_file_is_written, h, HostCall.mutating]

/-- C8: validation succeeds exactly when core-ip is present and parses as an
IP network; on failure the collected field errors are sorted and rendered as
one combined message naming the failing field; the valid example strings
validate and the malformed example does not. -/
theorem C8_validation_completeness (raw : RawConfig) :
    ((∃ cc, CharmConfig.from_charm raw = Except.ok cc) ↔
      ∃ v, raw.core_ip = some v ∧ ip_network_ok v = true)
    ∧ (raw.core_ip = none → CharmConfig.from_charm raw
        = Except.error (render_invalid_message (sortFields ["core-ip"])))
    ∧ (∀ v, raw.core_ip = some v → ip_network_ok v = false → CharmConfig.from_charm raw
        = Except.error (render_invalid_message (sortFields ["core-ip"])))
    ∧ render_invalid_message (sortFields ["core-ip"])
        = "The following configurations are not valid: ["
            ++ single_quote ++ "core-ip" ++ single_quote ++ "]"
    ∧ ip_network_ok "192.0.2.0/24" = true
    ∧ ip_network_ok "10.0.0.5" = true
    ∧ ip_network_ok "not-an-ip" = false := by
  refine ⟨?_, ?_, ?_, by decide, by decide, by decide, by decide⟩
  · constructor
    · rintro ⟨cc, hcc⟩
      rcases h : raw.core_ip with _ | v
      · exfalso
        simp [CharmConfig.from_charm, validation_error_fields, h] at hcc
      · by_cases hip : ip_network_ok v = true
        · exact ⟨v, rfl, hip⟩
        · exfalso
          simp [CharmConfig.from_charm, validation_error_fields, h, hip] at hcc
    · rintro ⟨v, hv, hip⟩
      refine ⟨{ core_ip := v, external_upf_hostname := raw.external_upf_hostname }, ?_⟩
      simp [CharmConfig.from_charm, validation_error_fields, hv, hip]
  · intro h
    simp [CharmConfig.from_charm, validation_error_fields, h]
  · intro v h hip
    simp [CharmConfig.from_charm, validation_error_fields, h, hip]

/-- C9 counterexample: a command executed with the default timeout of
Machine.exec is waited on indefinitely when it hangs; no bounded timeout
applies and no timeout failure is ever raised, so not every shelled-out
command runs under a bounded timeout. -/
theorem C9_counterexample :
    (Machine.exec ProcBehavior.hangs exec_default_timeout).wait_output = WaitResult.never_returns
    ∧ WaitResult.never_returns ≠ WaitResult.timed_out true
    ∧ WaitResult.never_returns ≠ WaitResult.timed_out false
    ∧ ∀ out err, WaitResult.never_returns ≠ WaitResult.success out err := by
  refine ⟨rfl, by decide, by decide, ?_⟩
  intro out err h
  exact WaitResult.noConfusion h

/-- C9 amended: when a timeout is supplied to Machine.exec and it expires,
the in-flight process is killed and a distinct timeout failure is raised,
never a success and never a nonzero-exit error; with the default of no
timeout the wait is unbounded. -/
theorem C9_timeout_expiry (limit : Nat) (b : ProcBehavior)
    (h : behavior_exceeds limit b = true) :
    (Machine.exec b (some limit)).wait_output = WaitResult.timed_out true
    ∧ (∀ out err, (Machine.exec b (some limit)).wait_output ≠ WaitResult.success out err)
    ∧ (∀ ec out err,
        (Machine.exec b (some limit)).wait_output ≠ WaitResult.exec_error ec out err) := by
  cases b with
  | hangs =>
    refine ⟨rfl, ?_, ?_⟩ <;> intros <;> simp [Machine.exec, ExecProcess.wait_output]
  | runs_for t ec out err =>
    simp only [behavior_exceeds, decide_eq_true_eq] at h
    have hnot : ¬ t ≤ limit := by omega
    refine ⟨?_, ?_, ?_⟩ <;>
      simp [Machine.exec, ExecProcess.wait_output, hnot]

/-- C9 witness: the amended timeout theorem applied to a process that runs
for five time units against a one-unit timeout. -/
theorem C9_timeout_expiry_witness :
    behavior_exceeds 1 (ProcBehavior.runs_for 5 0 "out" "err") = true
    ∧ (Machine.exec (ProcBehavior.runs_for 5 0 "out" "err") (some 1)).wait_output
        = WaitResult.timed_out true :=
  ⟨by decide,
   (C9_timeout_expiry 1 (ProcBehavior.runs_for 5 0 "out" "err") (by decide)).1⟩

/-- C2: for every raw configuration whose core-ip is absent or does not parse
as an IP network, no trigger performs any host-mutating call and the host
state is left unchanged: validation fails closed before any host mutation. -/
theorem C2_fail_closed {Y : Type} [DecidableEq Y] (decode : String → Option Y)
    (render : RenderFn) (raw : RawConfig) (tr : Trigger) (l b : Bool) (s : HostState)
    (h : raw.core_ip = none ∨ ∃ v, raw.core_ip = some v ∧ ip_network_ok v = false) :
    (handle_trigger tr raw l b decode render s).state = s
    ∧ (handle_trigger tr raw l b decode render s).calls.filter HostCall.mutating = [] := by
  have hfc : ∃ msg, CharmConfig.from_charm raw = Except.error msg := by
    refine ⟨render_invalid_message (sortFields ["core-ip"]), ?_⟩
    rcases h with h | ⟨v, hv, hip⟩
    · simp [CharmConfig.from_charm, validation_error_fields, h]
    · simp [CharmConfig.from_charm, validation_error_fields, hv, hip]
  rcases hfc with ⟨msg, hmsg⟩
  cases tr
  · constructor <;> simp [handle_trigger, handle_config_changed, hmsg]
  · refine ⟨rfl, ?_⟩
    cases l
    · rfl
    · rcases hf : s.config_file with _ | c <;>
        simp [handle_trigger, on_collect_status, upf_config_file_is_written, hf,
          HostCall.mutating]
  · exact ⟨rfl, rfl⟩

/-- C2 witness: the fail-closed theorem applied to the malformed core-ip
value not-an-ip with the config-changed trigger on a fresh host. -/
theorem C2_fail_closed_witness :
    (invalid_raw.core_ip = none
      ∨ ∃ v, invalid_raw.core_ip = some v ∧ ip_network_ok v = false)
    ∧ (handle_trigger Trigger.config_changed invalid_raw true false sample_decode
        sample_render fresh_host).state = fresh_host
    ∧ (handle_trigger Trigger.config_changed invalid_raw true false sample_decode
        sample_render fresh_host).calls.filter HostCall.mutating = [] :=
  ⟨Or.inr ⟨"not-an-ip", rfl, by decide⟩,
   C2_fail_closed sample_decode sample_render invalid_raw Trigger.config_changed true false
     fresh_host (Or.inr ⟨"not-an-ip", rfl, by decide⟩)⟩

/-- C4: the config-artifact action writes exactly when the file is absent or
the decoded structures differ; in particular, for any two textual encodings
with equal decoded structures, one on the host and the other produced by the
renderer, it performs no write. -/
theorem C4_equivalence_insensitivity {Y : Type} [DecidableEq Y]
    (decode : String → Option Y) (render : RenderFn) (s : HostState) :
    ((generate_config_file decode render s).calls.filter HostCall.mutating = [])
    ↔ ∃ e y, s.config_file = some e ∧ decode e = some y
        ∧ decode (rendered_content render) = some y := by
  rcases hf : s.config_file with _ | e
  · simp [generate_config_file, upf_config_file_is_written, write_upf_config_file, hf,
      HostCall.mutating]
  · rcases hd : decode e with _ | a
    · simp [generate_config_file, upf_config_file_is_written,
        upf_config_file_content_matches, write_upf_config_file, hf, hd, HostCall.mutating]
    · rcases hc : decode (rendered_content render) with _ | b
      · simp [generate_config_file, upf_config_file_is_written,
          upf_config_file_content_matches, write_upf_config_file, hf, hd, hc,
          HostCall.mutating]
      · by_cases hab : a = b
        · subst hab
          simp [generate_config_file, upf_config_file_is_written,
            upf_config_file_content_matches, write_upf_config_file, hf, hd, hc,
            HostCall.mutating]
        · simp [generate_config_file, upf_config_file_is_written,
            upf_config_file_content_matches, write_upf_config_file, hf, hd, hc, hab,
            HostCall.mutating]

/-- C5: on a fresh host with a valid configuration, one reconcile pass makes
exactly the mutating calls install (ensure then hold), config file write and
service start, once each and in that order. -/
theorem C5_fresh_host_ordering {Y : Type} [DecidableEq Y] (decode : String → Option Y)
    (render : RenderFn) (raw : RawConfig) (cc : CharmConfig)
    (h : CharmConfig.from_charm raw = Except.ok cc) :
    (handle_config_changed raw true false decode render fresh_host).calls.filter
        HostCall.mutating
      = [HostCall.snap_ensure EUPF_SNAP_NAME EUPF_SNAP_CHANNEL,
         HostCall.snap_hold EUPF_SNAP_NAME,
         HostCall.push eupf_config_file_path (rendered_content render),
         HostCall.snap_start EUPF_SNAP_NAME "eupf"] := by
  simp [handle_config_changed, h, configure, install_eupf_snap, eupf_snap_installed,
    generate_config_file, upf_config_file_is_written, write_upf_config_file,
    start_eupf_service, eupf_service_started, fresh_host, HostCall.mutating]

/-- C5 witness: the ordering theorem applied to the sample valid
configuration. -/
theorem C5_fresh_host_ordering_witness :
    CharmConfig.from_charm sample_raw = Except.ok sample_cc
    ∧ (handle_config_changed sample_raw true false sample_decode sample_render
        fresh_host).calls.filter HostCall.mutating
      = [HostCall.snap_ensure EUPF_SNAP_NAME EUPF_SNAP_CHANNEL,
         HostCall.snap_hold EUPF_SNAP_NAME,
         HostCall.push eupf_config_file_path (rendered_content sample_render),
         HostCall.snap_start EUPF_SNAP_NAME "eupf"] :=
  ⟨by rfl,
   C5_fresh_host_ordering sample_decode sample_render sample_raw sample_cc (by rfl)⟩

/-- C6: when the snap is not installed and the install action raises, the
reconcile pass propagates the failure, and its trace contains the failed
ensure call but neither a file write nor a service start. -/
theorem C6_install_failure_aborts {Y : Type} [DecidableEq Y]
    (decode : String → Option Y) (render : RenderFn) (raw : RawConfig)
    (cc : CharmConfig) (s : HostState)
    (h1 : CharmConfig.from_charm raw = Except.ok cc) (h2 : s.snap_latest = false) :
    (handle_config_changed raw true true decode render s).ok = false
    ∧ (handle_config_changed raw true true decode render s).calls
        = [HostCall.snap_state EUPF_SNAP_NAME,
           HostCall.snap_ensure EUPF_SNAP_NAME EUPF_SNAP_CHANNEL]
    ∧ (∀ p c, HostCall.push p c ∉ (handle_config_changed raw true true decode render s).calls)
    ∧ (∀ a b, HostCall.snap_start a b
        ∉ (handle_config_changed raw true true decode render s).calls) := by
  have hcalls : (handle_config_changed raw true true decode render s).calls
      = [HostCall.snap_state EUPF_SNAP_NAME,
         HostCall.snap_ensure EUPF_SNAP_NAME EUPF_SNAP_CHANNEL] := by
    simp [handle_config_changed, h1, configure, install_eupf_snap, eupf_snap_installed, h2]
  refine ⟨?_, hcalls, ?_, ?_⟩
  · simp [handle_config_changed, h1, configure, install_eupf_snap, eupf_snap_installed, h2]
  · intro p c hmem
    rw [hcalls] at hmem
    simp at hmem
  · intro a b hmem
    rw [hcalls] at hmem
    simp at hmem

/-- C6 witness: the install-failure theorem applied to the sample valid
configuration on a fresh host. -/
theorem C6_install_failure_aborts_witness :
    CharmConfig.from_charm sample_raw = Except.ok sample_cc
    ∧ fresh_host.snap_latest = false
    ∧ (handle_config_changed sample_raw true true sample_decode sample_render
        fresh_host).ok = false
    ∧ (handle_config_changed sample_raw true true sample_decode sample_render
        fresh_host).calls
      = [HostCall.snap_state EUPF_SNAP_NAME,
         HostCall.snap_ensure EUPF_SNAP_NAME EUPF_SNAP_CHANNEL] :=
  ⟨by rfl, by rfl,
   (C6_install_failure_aborts sample_decode sample_render sample_raw sample_cc fresh_host
      (by rfl) (by rfl)).1,
   (C6_install_failure_aborts sample_decode sample_render sample_raw sample_cc fresh_host
      (by rfl) (by rfl)).2.1⟩

/-- C7: when the existing on-host file content fails to decode, the
comparison treats it as not equivalent, so the action completes without
raising and rewrites the file. -/
theorem C7_decode_error_rewrites {Y : Type} [DecidableEq Y]
    (decode : String → Option Y) (render : RenderFn) (s : HostState) (e : String)
    (h1 : s.config_file = some e) (h2 : decode e = none) :
    (generate_config_file decode render s).ok = true
    ∧ (generate_config_file decode render s).calls.filter HostCall.mutating
        = [HostCall.push eupf_config_file_path (rendered_content render)] := by
  constructor <;>
    simp [generate_config_file, upf_config_file_is_written,
      upf_config_file_content_matches, write_upf_config_file, h1, h2, HostCall.mutating]

/-- C7 witness: the rewrite-on-decode-error theorem applied to a host whose
file content bad is rejected by the failing decoder. -/
theorem C7_decode_error_rewrites_witness :
    stale_host.config_file = some "bad"
    ∧ decode_fail "bad" = none
    ∧ (generate_config_file decode_fail sample_render stale_host).ok = true
    ∧ (generate_config_file decode_fail sample_render stale_host).calls.filter
        HostCall.mutating
      = [HostCall.push eupf_config_file_path (rendered_content sample_render)] :=
  ⟨by rfl, by rfl,
   (C7_decode_error_rewrites decode_fail sample_render stale_host "bad" (by rfl) (by rfl)).1,
   (C7_decode_error_rewrites decode_fail sample_render stale_host "bad" (by rfl) (by rfl)).2⟩

/-! ### Helper lemmas for idempotence and config independence -/

/-- Fields of the host state after a successful install step: the snap is at
Latest and the file and service are untouched. -/
theorem install_ok_fields (b : Bool) (s : HostState)
    (h : (install_eupf_snap b s).ok = true) :
    (install_eupf_snap b s).state.snap_latest = true
    ∧ (install_eupf_snap b s).state.config_file = s.config_file
    ∧ (install_eupf_snap b s).state.service_active = s.service_active := by
  by_cases hs : s.snap_latest
  · refine ⟨?_, ?_, ?_⟩ <;> simp [install_eupf_snap, eupf_snap_installed, hs]
  · by_cases hb : b
    · exfalso
      simp [install_eupf_snap, eupf_snap_installed, hs, hb] at h
    · simp [install_eupf_snap, eupf_snap_installed, hs, hb]

/-- Fields of the host state after the config-artifact step, provided the
rendered content decodes: the snap and service are untouched, and the file
holds content whose decoded structure equals that of the rendered content. -/
theorem generate_fields {Y : Type} [DecidableEq Y] (decode : String → Option Y)
    (render : RenderFn) (s : HostState) (y0 : Y)
    (h2 : decode (rendered_content render) = some y0) :
    (generate_config_file decode render s).state.snap_latest = s.snap_latest
    ∧ (generate_config_file decode render s).state.service_active = s.service_active
    ∧ ∃ e y, (generate_config_file decode render s).state.config_file = some e
        ∧ decode e = some y ∧ decode (rendered_content render) = some y := by
  rcases hf : s.config_file with _ | e0
  · refine ⟨?_, ?_, rendered_content render, y0, ?_, h2, h2⟩ <;>
      simp [generate_config_file, upf_config_file_is_written, write_upf_config_file, hf]
  · rcases hd : decode e0 with _ | a
    · refine ⟨?_, ?_, rendered_content render, y0, ?_, h2, h2⟩ <;>
        simp [generate_config_file, upf_config_file_is_written,
          upf_config_file_content_matches, write_upf_config_file, hf, hd]
    · by_cases hab : a = y0
      · subst hab
        refine ⟨?_, ?_, e0, a, ?_, hd, h2⟩ <;>
          simp [generate_config_file, upf_config_file_is_written,
            upf_config_file_content_matches, write_upf_config_file, hf, hd, h2]
      · refine ⟨?_, ?_, rendered_content render, y0, ?_, h2, h2⟩ <;>
          simp [generate_config_file, upf_config_file_is_written,
            upf_config_file_content_matches, write_upf_config_file, hf, hd, h2, hab]

/-- Fields of the host state after the service-start step: the service is
active and the snap and file are untouched. -/
theorem start_fields (s : HostState) :
    (start_eupf_service s).state.service_active = true
    ∧ (start_eupf_service s).state.snap_latest = s.snap_latest
    ∧ (start_eupf_service s).state.config_file = s.config_file := by
  by_cases h : s.service_active <;>
    simp [start_eupf_service, eupf_service_started, h]

/-- State reached by a successful leader reconcile pass, provided the
rendered content decodes: the snap is installed, the service is active, and
the file content decodes to the decoded rendered content. -/
theorem configure_ok_state {Y : Type} [DecidableEq Y] (b : Bool)
    (decode : String → Option Y) (render : RenderFn) (s : HostState)
    (h1 : (configure true b decode render s).ok = true) (y0 : Y)
    (h2 : decode (rendered_content render) = some y0) :
    (configure true b decode render s).state.snap_latest = true
    ∧ (configure true b decode render s).state.service_active = true
    ∧ ∃ e y, (configure true b decode render s).state.config_file = some e
        ∧ decode e = some y ∧ decode (rendered_content render) = some y := by
  by_cases hok : (install_eupf_snap b s).ok = true
  · have hstate : (configure true b decode render s).state
        = (start_eupf_service (generate_config_file decode render
            (install_eupf_snap b s).state).state).state := by
      simp [configure, hok]
    obtain ⟨hi1, hi2, hi3⟩ := install_ok_fields b s hok
    obtain ⟨hg1, hg2, e, y, hg3, hg4, hg5⟩ :=
      generate_fields decode render (install_eupf_snap b s).state y0 h2
    obtain ⟨hs1, hs2, hs3⟩ :=
      start_fields (generate_config_file decode render (install_eupf_snap b s).state).state
    rw [hstate]
    exact ⟨by rw [hs2, hg1, hi1], hs1, e, y, by rw [hs3, hg3], hg4, hg5⟩
  · exfalso
    have : (configure true b decode render s) = install_eupf_snap b s := by
      simp [configure, hok]
    rw [this] at h1
    exact hok h1

/-- A reconcile pass over a converged host state performs no mutating call:
the snap query, existence check, pull and services query are the entire
trace. -/
theorem configure_converged_no_mutation {Y : Type} [DecidableEq Y] (l b : Bool)
    (decode : String → Option Y) (render : RenderFn) (s : HostState)
    (hs : s.snap_latest = true) (hv : s.service_active = true) (e : String) (y : Y)
    (he : s.config_file = some e) (hd : decode e = some y)
    (hc : decode (rendered_content render) = some y) :
    (configure l b decode render s).calls.filter HostCall.mutating = [] := by
  cases l
  · simp [configure]
  · simp [configure, install_eupf_snap, eupf_snap_installed, hs, generate_config_file,
      upf_config_file_is_written, he, upf_config_file_content_matches, hd, hc,
      start_eupf_service, eupf_service_started, hv, HostCall.mutating]

/-- C3: after one completed reconcile pass whose rendered artifact decodes,
an immediately repeated pass with unchanged desired and host state performs
zero mutating host calls; only read-only observations occur. -/
theorem C3_idempotence {Y : Type} [DecidableEq Y] (decode : String → Option Y)
    (render : RenderFn) (l b1 b2 : Bool) (s : HostState)
    (h1 : (configure l b1 decode render s).ok = true)
    (h2 : (decode (rendered_content render)).isSome = true) :
    (configure l b2 decode render
        (configure l b1 decode render s).state).calls.filter HostCall.mutating = [] := by
  obtain ⟨y0, hy0⟩ := Option.isSome_iff_exists.mp h2
  cases l
  · simp [configure]
  · obtain ⟨ha, hb, e, y, hce, hcd, hcc⟩ := configure_ok_state b1 decode render s h1 y0 hy0
    exact configure_converged_no_mutation true b2 decode render
      (configure true b1 decode render s).state ha hb e y hce hcd hcc

/-- C3 witness: the idempotence theorem applied to a fresh host, the sample
decoder and the sample renderer. -/
theorem C3_idempotence_witness :
    (configure true false sample_decode sample_render fresh_host).ok = true
    ∧ (sample_decode (rendered_content sample_render)).isSome = true
    ∧ (configure true true sample_decode sample_render
        (configure true false sample_decode sample_render fresh_host).state).calls.filter
        HostCall.mutating = [] :=
  ⟨by decide, by decide,
   C3_idempotence sample_decode sample_render true false true fresh_host
     (by decide) (by decide)⟩

/-- A push recorded by the install step never happens. -/
theorem install_no_push (b : Bool) (s : HostState) (p c : String) :
    HostCall.push p c ∉ (install_eupf_snap b s).calls := by
  by_cases hs : s.snap_latest <;> by_cases hb : b <;>
    simp [install_eupf_snap, eupf_snap_installed, hs, hb]

/-- A push recorded by the service-start step never happens. -/
theorem start_no_push (s : HostState) (p c : String) :
    HostCall.push p c ∉ (start_eupf_service s).calls := by
  by_cases hv : s.service_active <;>
    simp [start_eupf_service, eupf_service_started, hv]

/-- Trace of the content comparison: the single read-only pull. -/
theorem matches_calls {Y : Type} [DecidableEq Y] (decode : String → Option Y)
    (content : String) (s : HostState) :
    (upf_config_file_content_matches decode content s).2
      = [HostCall.pull eupf_config_file_path] := rfl

/-- Any push recorded by the config-artifact step writes the rendered content
to the configuration file path. -/
theorem generate_push_content {Y : Type} [DecidableEq Y] (decode : String → Option Y)
    (render : RenderFn) (s : HostState) (p c : String)
    (h : HostCall.push p c ∈ (generate_config_file decode render s).calls) :
    p = eupf_config_file_path ∧ c = rendered_content render := by
  rcases hf : s.config_file with _ | e
  · simp [generate_config_file, upf_config_file_is_written, write_upf_config_file, hf] at h
    exact ⟨h.1, h.2⟩
  · by_cases hm : (upf_config_file_content_matches decode (rendered_content render) s).1 = true
    · exfalso
      simp [generate_config_file, upf_config_file_is_written, hf, hm, matches_calls] at h
    · simp [generate_config_file, upf_config_file_is_written, write_upf_config_file, hf,
        hm, matches_calls] at h
      exact ⟨h.1, h.2⟩

/-- Any push recorded by a reconcile pass writes the rendered content to the
configuration file path. -/
theorem configure_push_content {Y : Type} [DecidableEq Y] (l b : Bool)
    (decode : String → Option Y) (render : RenderFn) (s : HostState) (p c : String)
    (h : HostCall.push p c ∈ (configure l b decode render s).calls) :
    p = eupf_config_file_path ∧ c = rendered_content render := by
  cases l
  · simp [configure] at h
  · by_cases hok : (install_eupf_snap b s).ok = true
    · have hcalls : (configure true b decode render s).calls
          = (install_eupf_snap b s).calls
            ++ ((generate_config_file decode render (install_eupf_snap b s).state).calls
              ++ (start_eupf_service (generate_config_file decode render
                    (install_eupf_snap b s).state).state).calls) := by
        simp [configure, hok]
      rw [hcalls] at h
      rcases List.mem_append.mp h with h | h
      · exact absurd h (install_no_push b s p c)
      · rcases List.mem_append.mp h with h | h
        · exact generate_push_content decode render (install_eupf_snap b s).state p c h
        · exact absurd h (start_no_push _ p c)
    · have hcfg : (configure true b decode render s) = install_eupf_snap b s := by
        simp [configure, hok]
      rw [hcfg] at h
      exact absurd h (install_no_push b s p c)

/-- C10: the dispatch of a config-changed event, and in particular every file
write it performs, is independent of the validated configuration: two valid
raw configurations produce identical runs, and any push writes exactly the
render of the fixed deployment constants to the fixed path. -/
theorem C10_config_independence {Y : Type} [DecidableEq Y] (decode : String → Option Y)
    (render : RenderFn) (raw1 raw2 : RawConfig) (c1 c2 : CharmConfig) (l b : Bool)
    (s : HostState)
    (h1 : CharmConfig.from_charm raw1 = Except.ok c1)
    (h2 : CharmConfig.from_charm raw2 = Except.ok c2) :
    handle_config_changed raw1 l b decode render s
      = handle_config_changed raw2 l b decode render s
    ∧ ∀ p c, HostCall.push p c ∈ (handle_config_changed raw1 l b decode render s).calls →
        p = eupf_config_file_path ∧ c = rendered_content render := by
  constructor
  · simp [handle_config_changed, h1, h2]
  · intro p c hmem
    have : (handle_config_changed raw1 l b decode render s)
        = configure l b decode render s := by
      simp [handle_config_changed, h1]
    rw [this] at hmem
    exact configure_push_content l b decode render s p c hmem

/-- C10 witness: the config-independence theorem applied to two valid raw
configurations that differ in both fields. -/
theorem C10_config_independence_witness :
    CharmConfig.from_charm sample_raw = Except.ok sample_cc
    ∧ CharmConfig.from_charm sample_raw2 = Except.ok sample_cc2
    ∧ handle_config_changed sample_raw true false sample_decode sample_render fresh_host
        = handle_config_changed sample_raw2 true false sample_decode sample_render
            fresh_host :=
  ⟨by rfl, by rfl,
   (C10_config_independence sample_decode sample_render sample_raw sample_raw2 sample_cc
      sample_cc2 true false fresh_host (by rfl) (by rfl)).1⟩

end Eupf
